import Mathlib

/-!
Verification of the quotation REST service (src/app.py) against its
specification.

The repository ships only `app.py` (the route handlers) and `test.py`.
The collaborators `auth.py` (TokenValidator / PermissionGate) and
`models.py` (the SQLAlchemy store for `Quote` and `Person`) are not in
the sources, so those pieces are modelled from the specification
(sections 4.1-4.3); every such definition is marked in its doc comment.
The route handlers themselves are translated line by line from
`src/app.py`.

Modelling conventions:
- The persistent store is a `DB` value threaded through every handler.
- `request.get_json()` is an `Option` of a typed body record; `none`
  models a request whose body is absent or does not parse as a JSON
  object, in which case the Python handler calls `.get` on `None` and
  raises an uncaught `AttributeError` - modelled as the `crash`
  constructor of the handler's result type.
- A field fetched with `body.get(k, None)` is an `Option`; JSON `null`
  and an omitted key both give `none`, exactly as in Python.
- Python truthiness of those fetched values (`if title:`) is
  `truthyStr` / `truthyNat`: `None`, the empty string, and the integer
  `0` are falsy.
- `order_by('id')` is insertion sort by ascending `id`.
-/

set_option maxRecDepth 4096

namespace Quotation

/-- A stored `Person` row (spec section 3): `{id: integer, name: string}`. -/
structure Person where
  id : Nat
  name : String
deriving DecidableEq, Repr

/-- A stored `Quote` row (spec section 3):
`{id, title, description, person_id}` with `person_id` referencing a
`Person`. -/
structure Quote where
  id : Nat
  title : String
  description : String
  person_id : Nat
deriving DecidableEq, Repr

/-- Modelled from the spec: `models.py` is not under src.  The store state
(section 4.3 ResourceStore): the two tables plus the serial-id counters the
store uses to assign a fresh id on insert. -/
structure DB where
  quotes : List Quote
  persons : List Person
  nextQuoteId : Nat
  nextPersonId : Nat
deriving DecidableEq, Repr

/-- The JSON body of a quote create/update request, after
`body.get('title'/'description'/'person_id', None)`: each field is `none`
when the key is absent or `null`. -/
structure QuoteBody where
  title : Option String
  description : Option String
  person_id : Option Nat
deriving DecidableEq, Repr

/-- The JSON body of a person create/update request, after
`body.get('name', None)`. -/
structure PersonBody where
  name : Option String
deriving DecidableEq, Repr

/-- Python truthiness of an optional string field: `None` and `""` are
falsy, every other string is truthy. -/
def truthyStr : Option String → Bool
  | none => false
  | some s => s != ""

/-- Python truthiness of an optional integer field: `None` and `0` are
falsy. -/
def truthyNat : Option Nat → Bool
  | none => false
  | some n => n != 0

/-- `if v: cur = v` for a string field: assign only when truthy. -/
def applyStr (cur : String) (v : Option String) : String :=
  match v with
  | none => cur
  | some s => if s != "" then s else cur

/-- `if v: cur = v` for an integer field: assign only when truthy. -/
def applyNat (cur : Nat) (v : Option Nat) : Nat :=
  match v with
  | none => cur
  | some n => if n != 0 then n else cur

/-- `Person.query.filter(id).first()`-style lookup used by
`get_or_404`. -/
def findPerson (db : DB) (id : Nat) : Option Person :=
  db.persons.find? (fun p => p.id == id)

/-- `Quote.query.get(id)`-style lookup used by `get_or_404`. -/
def findQuote (db : DB) (id : Nat) : Option Quote :=
  db.quotes.find? (fun q => q.id == id)

/-- Whether a `person_id` foreign key references an existing person. -/
def personExists (db : DB) (pid : Nat) : Bool :=
  db.persons.any (fun p => p.id == pid)

/-- Ascending-id order on quotes, used by `order_by('id')`. -/
def quoteLe (a b : Quote) : Prop := a.id ≤ b.id

instance : DecidableRel quoteLe :=
  fun a b => inferInstanceAs (Decidable (a.id ≤ b.id))

instance : IsTotal Quote quoteLe := ⟨fun a b => Nat.le_total a.id b.id⟩

instance : IsTrans Quote quoteLe := ⟨fun _ _ _ => Nat.le_trans⟩

/-- Ascending-id order on persons, used by `order_by('id')`. -/
def personLe (a b : Person) : Prop := a.id ≤ b.id

instance : DecidableRel personLe :=
  fun a b => inferInstanceAs (Decidable (a.id ≤ b.id))

instance : IsTotal Person personLe := ⟨fun a b => Nat.le_total a.id b.id⟩

instance : IsTrans Person personLe := ⟨fun _ _ _ => Nat.le_trans⟩

/-- `Quote.query.order_by('id').all()`: the quotes table in ascending id
order. -/
def sortQuotes (l : List Quote) : List Quote := l.insertionSort quoteLe

/-- `Person.query.order_by('id').all()`: the persons table in ascending id
order. -/
def sortPersons (l : List Person) : List Person := l.insertionSort personLe

/-! ## Route handlers (src/app.py), after the auth decorator has allowed
the request -/

/-- Result of `GET /quotes`: 200 with the listing and its count, or 404. -/
inductive QuotesListResult where
  | ok (quotes : List Quote) (total_quotes : Nat)
  | notFound
deriving DecidableEq, Repr

/-- `get_quotes` (src/app.py lines 43-55): list in ascending id order,
`abort(404)` when the table is empty, else 200 with the listing and
`total_quotes = len(quotes)`. -/
def get_quotes (db : DB) : QuotesListResult :=
  let quotes := sortQuotes db.quotes
  if quotes.isEmpty then .notFound
  else .ok quotes quotes.length

/-- Result of `GET /persons`: 200 with the listing and its count, or
404. -/
inductive PersonsListResult where
  | ok (persons : List Person) (total_persons : Nat)
  | notFound
deriving DecidableEq, Repr

/-- `get_persons` (src/app.py lines 63-76): list in ascending id order,
`abort(404)` when the table is empty, else 200 with the listing and
`total_persons = len(persons)`. -/
def get_persons (db : DB) : PersonsListResult :=
  let persons := sortPersons db.persons
  if persons.isEmpty then .notFound
  else .ok persons persons.length

/-- Result of `POST /quotes`: 200 with the created id and the refreshed
listing, 422 (`abort(422)` or a caught store exception), or an uncaught
error from `None.get` when the body is not a JSON object. -/
inductive CreateQuoteResult where
  | ok (created : Nat) (quotes : List Quote) (total_quotes : Nat)
  | unprocessable
  | crash
deriving DecidableEq, Repr

/-- `create_quote` (src/app.py lines 84-113): read the three fields with
`body.get`, `abort(422)` if any is `None`; insert (the store assigns
`nextQuoteId` and, per spec section 4.3, raises `ConstraintViolation` on an
invalid `person_id` foreign key, caught by the bare `except` as 422); on
success 200 with `created = quote.id`, the refreshed ordered listing and
its length. -/
def create_quote (db : DB) (body : Option QuoteBody) : CreateQuoteResult × DB :=
  match body with
  | none => (.crash, db)
  | some b =>
    match b.title, b.description, b.person_id with
    | some title, some description, some person_id =>
      if personExists db person_id then
        let q : Quote := ⟨db.nextQuoteId, title, description, person_id⟩
        let db' : DB := { db with
          quotes := db.quotes ++ [q]
          nextQuoteId := db.nextQuoteId + 1 }
        let listing := sortQuotes db'.quotes
        (.ok q.id listing listing.length, db')
      else (.unprocessable, db)
    | _, _, _ => (.unprocessable, db)

/-- Result of `POST /persons`, mirroring `CreateQuoteResult`. -/
inductive CreatePersonResult where
  | ok (created : Nat) (persons : List Person) (total_persons : Nat)
  | unprocessable
  | crash
deriving DecidableEq, Repr

/-- `create_person` (src/app.py lines 121-141): `abort(422)` if `name` is
`None`; insert (a person row has no foreign key, so the store accepts any
non-null name); 200 with `created = person.id`, the refreshed ordered
listing and `total_persons = len(persons_after_create)`. -/
def create_person (db : DB) (body : Option PersonBody) : CreatePersonResult × DB :=
  match body with
  | none => (.crash, db)
  | some b =>
    match b.name with
    | none => (.unprocessable, db)
    | some name =>
      let p : Person := ⟨db.nextPersonId, name⟩
      let db' : DB := { db with
        persons := db.persons ++ [p]
        nextPersonId := db.nextPersonId + 1 }
      let listing := sortPersons db'.persons
      (.ok p.id listing listing.length, db')

/-- Result of `PATCH /quotes/{id}`: 200 with `quote_id`, 404 from
`get_or_404`, 422 from the caught store exception, or an uncaught error
when the body is not a JSON object. -/
inductive EditQuoteResult where
  | ok (quote_id : Nat)
  | notFound
  | unprocessable
  | crash
deriving DecidableEq, Repr

/-- `edit_quote` (src/app.py lines 149-174): read the three fields with
`body.get` (before the lookup, so a non-object body crashes even at an
unknown id); `get_or_404(id)`; assign each field only when truthy
(`if title: quote.title = title` and likewise); `quote.update()` commits.
Per spec section 4.3 the commit raises `ConstraintViolation` when the
`person_id` column is changed to a value referencing no person - caught
by the bare `except` as 422 with the store rolled back. -/
def edit_quote (db : DB) (id : Nat) (body : Option QuoteBody) : EditQuoteResult × DB :=
  match body with
  | none => (.crash, db)
  | some b =>
    match findQuote db id with
    | none => (.notFound, db)
    | some q =>
      let q' : Quote :=
        { q with
          title := applyStr q.title b.title
          description := applyStr q.description b.description
          person_id := applyNat q.person_id b.person_id }
      if q'.person_id != q.person_id && !(personExists db q'.person_id) then
        (.unprocessable, db)
      else
        (.ok q.id,
          { db with quotes := db.quotes.map (fun r => if r.id == id then q' else r) })

/-- Result of `PATCH /persons/{id}`, mirroring `EditQuoteResult`. -/
inductive EditPersonResult where
  | ok (person_id : Nat)
  | notFound
  | unprocessable
  | crash
deriving DecidableEq, Repr

/-- `edit_person` (src/app.py lines 183-199): read `name` with `body.get`
(before the lookup); `get_or_404(id)`; `if name: person.name = name`
assigns the fetched session object, but - unlike `edit_quote` - the
handler never calls `person.update()`, so no commit reaches the store
(`update()` modelled from spec section 4.3 as the call that persists the
row): the store is returned unchanged.  The 200 body carries
`person.id`, which the name assignment does not touch. -/
def edit_person (db : DB) (id : Nat) (body : Option PersonBody) : EditPersonResult × DB :=
  match body with
  | none => (.crash, db)
  | some _ =>
    match findPerson db id with
    | none => (.notFound, db)
    | some p => (.ok p.id, db)

/-- Result of the two DELETE routes: 200 with the deleted id, or 404. -/
inductive DeleteResult where
  | ok (id : Nat)
  | notFound
deriving DecidableEq, Repr

/-- `remove_quote` (src/app.py lines 207-218): `get_or_404(id)`, then
`quote.delete()` (modelled from spec section 4.3: `deleteById` fails only
with NotFound, already excluded here), 200 with the request's `id`. -/
def remove_quote (db : DB) (id : Nat) : DeleteResult × DB :=
  match findQuote db id with
  | none => (.notFound, db)
  | some _ =>
    (.ok id, { db with quotes := db.quotes.filter (fun q => q.id != id) })

/-- `remove_person` (src/app.py lines 227-238): `get_or_404(id)`, then
`person.delete()`, 200 with the request's `id`.  Spec section 4.3 lists no
failure of `deleteById` beyond NotFound, and the spec leaves deleting a
person still referenced by quotes to the default store behaviour, so the
delete is modelled as succeeding. -/
def remove_person (db : DB) (id : Nat) : DeleteResult × DB :=
  match findPerson db id with
  | none => (.notFound, db)
  | some _ =>
    (.ok id, { db with persons := db.persons.filter (fun p => p.id != id) })

/-! ## Authentication and authorization -/

/-- The failure kinds of the token validator and permission gate, from
spec sections 4.1-4.2. -/
inductive AuthKind where
  | missingOrMalformedHeader
  | malformedToken
  | keySetUnavailable
  | keyNotFound
  | expired
  | invalidClaims
  | invalidSignature
  | invalidHeader
  | missingPermissionsClaim
  | forbidden
deriving DecidableEq, Repr

/-- Modelled from the spec: `auth.py` is not under src.  An `AuthError`
as the handler in `app.py` consumes it: `ex.error` (the description of
the failure kind, surfaced as the response `message`) and
`ex.status_code` (surfaced as the response `error` code). -/
structure AuthError where
  kind : AuthKind
  error : String
  status_code : Nat
deriving DecidableEq, Repr

/-- The uniform JSON error envelope
`{success: false, error: code, message: text}`. -/
structure ErrorBody where
  success : Bool
  error : Nat
  message : String
deriving DecidableEq, Repr

/-- `handle_auth_error` (src/app.py lines 268-274): every `AuthError`
becomes HTTP 401 with body
`{success: false, error: ex.status_code, message: ex.error}`. -/
def handle_auth_error (ex : AuthError) : Nat × ErrorBody :=
  (401, { success := false, error := ex.status_code, message := ex.error })

/-- Modelled from the spec (section 3): the claims of a validated token;
`permissions = none` models a token with no permissions claim at all,
distinct from `some []`. -/
structure AuthClaims where
  permissions : Option (List String)
deriving DecidableEq, Repr

/-- Modelled from the spec: `auth.py` is not under src.  The
PermissionGate of section 4.2: fail with `MissingPermissionsClaim` when
the claims carry no permissions field, with `Forbidden` when `required`
is not a member of the permission set. -/
def authorize (required : String) (claims : AuthClaims) : Except AuthError Unit :=
  match claims.permissions with
  | none =>
    .error ⟨.missingPermissionsClaim, "Permissions claim not included in token.", 400⟩
  | some perms =>
    if required ∈ perms then .ok ()
    else .error ⟨.forbidden, "Permission not found.", 403⟩

/-- Outcome of a protected route: the auth decorator short-circuited with
an error response, or the route handler ran. -/
inductive Protected (α : Type) where
  | authFailed (status : Nat) (body : ErrorBody)
  | allowed (result : α)
deriving DecidableEq, Repr

/-- The `requires_auth(permission)` decorator composed with the app's
`AuthError` handler: on a gate failure the response is produced by
`handle_auth_error`; on success the wrapped handler result is
returned. -/
def runProtected {α : Type} (required : String) (claims : AuthClaims)
    (handler : α) : Protected α :=
  match authorize required claims with
  | .error ex => .authFailed (handle_auth_error ex).1 (handle_auth_error ex).2
  | .ok _ => .allowed handler

/-! ## Concrete fixtures used by witnesses and counterexamples -/

/-- A stored person used in concrete scenarios. -/
def ali : Person := ⟨1, "Ali"⟩

/-- A stored quote (authored by `ali`) used in concrete scenarios. -/
def quote1 : Quote := ⟨1, "a", "b", 1⟩

/-- A store holding one quote and one person. -/
def db1 : DB := ⟨[quote1], [ali], 2, 2⟩

/-- The empty store. -/
def dbEmpty : DB := ⟨[], [], 1, 1⟩

/-! ## Basic facts about the listing order -/

/-- Sorting the quotes table preserves its row count. -/
theorem length_sortQuotes (l : List Quote) : (sortQuotes l).length = l.length :=
  (List.perm_insertionSort quoteLe l).length_eq

/-- Sorting the persons table preserves its row count. -/
theorem length_sortPersons (l : List Person) : (sortPersons l).length = l.length :=
  (List.perm_insertionSort personLe l).length_eq

/-- The sorted quotes table is empty exactly when the table is. -/
theorem sortQuotes_eq_nil_iff (l : List Quote) : sortQuotes l = [] ↔ l = [] := by
  rw [← List.length_eq_zero, ← List.length_eq_zero, length_sortQuotes]

/-- The sorted persons table is empty exactly when the table is. -/
theorem sortPersons_eq_nil_iff (l : List Person) : sortPersons l = [] ↔ l = [] := by
  rw [← List.length_eq_zero, ← List.length_eq_zero, length_sortPersons]

/-- Membership is unchanged by sorting the quotes table. -/
theorem mem_sortQuotes {a : Quote} {l : List Quote} : a ∈ sortQuotes l ↔ a ∈ l :=
  (List.perm_insertionSort quoteLe l).mem_iff

/-- Membership is unchanged by sorting the persons table. -/
theorem mem_sortPersons {a : Person} {l : List Person} : a ∈ sortPersons l ↔ a ∈ l :=
  (List.perm_insertionSort personLe l).mem_iff

/-! ## Claims -/

/-- Claim C1 (code bug).  A PATCH /persons/1 request carrying the truthy
name "Mohamed" against a store whose person 1 is named "Ali" responds 200
with the person's id, yet the store afterwards is the unchanged `db1`:
the stored person's name is still "Ali", not the supplied "Mohamed",
because `edit_person` never calls `person.update()` (compare
`edit_quote`, which does), so the session-object assignment is never
committed. -/
theorem c1_edit_person_returns_200_but_never_persists :
    edit_person db1 1 (some ⟨some "Mohamed"⟩) = (.ok 1, db1) ∧
    findPerson db1 1 = some ⟨1, "Ali"⟩ ∧
    ("Ali" : String) ≠ "Mohamed" := by decide

/-- Claim C10.  For every POST or PATCH request whose body is absent or
not a JSON object (`body = none`), each handler dereferences the null
parse result (`None.get`) before any validation or existence check and
raises an uncaught error - `crash`, which is none of the JSON error
responses: not 422, and on PATCH not 404 even when the id is unknown. -/
theorem c10_null_body_crashes_before_checks (db : DB) (id : Nat) :
    create_quote db none = (.crash, db) ∧
    create_person db none = (.crash, db) ∧
    edit_quote db id none = (.crash, db) ∧
    edit_person db id none = (.crash, db) ∧
    CreateQuoteResult.crash ≠ CreateQuoteResult.unprocessable ∧
    CreatePersonResult.crash ≠ CreatePersonResult.unprocessable ∧
    EditQuoteResult.crash ≠ EditQuoteResult.notFound ∧
    EditQuoteResult.crash ≠ EditQuoteResult.unprocessable ∧
    EditPersonResult.crash ≠ EditPersonResult.notFound :=
  ⟨rfl, rfl, rfl, rfl, by decide, by decide, by decide, by decide, by decide⟩

/-- Claim C7, counterexample.  A PATCH /quotes/5 request at a store with
no quote 5 does NOT respond 404 when its body fails to parse as a JSON
object: the handler reads the body fields before the `get_or_404`
lookup, so it crashes on the null parse result instead. -/
theorem c7_counterexample_crash_not_404 :
    findQuote db1 5 = none ∧
    edit_quote db1 5 none = (.crash, db1) ∧
    EditQuoteResult.crash ≠ EditQuoteResult.notFound := by decide

/-- Claim C7 as amended.  For every PATCH /quotes/{id} request whose body
parses as a JSON object, if no quote with that id exists the response is
404 and the store is returned unchanged - the `get_or_404` existence
check happens before any field assignment. -/
theorem c7_unknown_id_404_when_body_is_json (db : DB) (id : Nat)
    (b : QuoteBody) (h : findQuote db id = none) :
    edit_quote db id (some b) = (.notFound, db) := by
  simp [edit_quote, h]

/-- Witness for C7's amended theorem at a concrete input: quote 5 is
absent from `db1`, and the PATCH with body `{title: "X"}` yields 404 with
the store unchanged. -/
theorem c7_witness :
    findQuote db1 5 = none ∧
    edit_quote db1 5 (some ⟨some "X", none, none⟩) = (.notFound, db1) :=
  ⟨by decide, c7_unknown_id_404_when_body_is_json db1 5 ⟨some "X", none, none⟩ (by decide)⟩

/-- Claim C3.  A POST /quotes request whose JSON body has a null or
absent title, description, or person_id responds 422 and leaves the
store unchanged: the `abort(422)` fires before any insert. -/
theorem c3_create_quote_null_field_422_no_insert (db : DB) (b : QuoteBody)
    (h : b.title = none ∨ b.description = none ∨ b.person_id = none) :
    create_quote db (some b) = (.unprocessable, db) := by
  obtain ⟨t, d, p⟩ := b
  cases t <;> cases d <;> cases p <;> first | rfl | simp_all

/-- Witness for C3 at a concrete input: a body with `person_id` absent
is rejected with 422 and no insert. -/
theorem c3_witness :
    (QuoteBody.mk (some "t") (some "d") none).person_id = none ∧
    create_quote db1 (some ⟨some "t", some "d", none⟩) = (.unprocessable, db1) :=
  ⟨rfl, c3_create_quote_null_field_422_no_insert db1 ⟨some "t", some "d", none⟩
    (Or.inr (Or.inr rfl))⟩

/-- Claim C2.  A PATCH /quotes/{id} request whose JSON body supplies only
the title field (description and person_id absent or null) responds 200
with the quote's id and rewrites the store so that the addressed quote
keeps its description and person_id (only the title is touched, via the
truthy assignment), every other quote row is mapped to itself, and the
persons table is untouched. -/
theorem c2_patch_title_only_preserves_other_fields (db : DB) (id : Nat)
    (b : QuoteBody) (q : Quote) (hq : findQuote db id = some q)
    (hd : b.description = none) (hp : b.person_id = none) :
    edit_quote db id (some b) =
      (.ok q.id,
        { db with quotes := db.quotes.map (fun r =>
            if r.id == id then { q with title := applyStr q.title b.title } else r) }) ∧
    ({ q with title := applyStr q.title b.title }).description = q.description ∧
    ({ q with title := applyStr q.title b.title }).person_id = q.person_id ∧
    (edit_quote db id (some b)).2.persons = db.persons := by
  have hmain : edit_quote db id (some b) =
      (.ok q.id,
        { db with quotes := db.quotes.map (fun r =>
            if r.id == id then { q with title := applyStr q.title b.title } else r) }) := by
    simp [edit_quote, hq, hd, hp, applyStr, applyNat]
  exact ⟨hmain, rfl, rfl, by rw [hmain]⟩

/-- Witness for C2 at a concrete input: PATCH /quotes/1 with body
`{title: "X"}` against `db1` gives 200 with quote_id 1, the stored quote
becomes `{1, "X", "b", 1}` (description "b" and person_id 1 unchanged),
and the persons table is untouched. -/
theorem c2_witness :
    findQuote db1 1 = some quote1 ∧
    edit_quote db1 1 (some ⟨some "X", none, none⟩) =
      (.ok 1, ⟨[⟨1, "X", "b", 1⟩], [ali], 2, 2⟩) :=
  ⟨by decide, by
    have h := (c2_patch_title_only_preserves_other_fields db1 1
      ⟨some "X", none, none⟩ quote1 (by decide) rfl rfl).1
    rw [h]; decide⟩

/-- Claim C9, counterexample.  Supplying the non-null empty string for
`title` in PATCH /quotes/1 does NOT change the field: the handler guards
each assignment with Python truthiness (`if title:`), under which `""` is
falsy, so the stored title stays "a" while the request still gets 200. -/
theorem c9_counterexample_empty_string_not_applied :
    (edit_quote db1 1 (some ⟨some "", none, none⟩)).1 = .ok 1 ∧
    findQuote (edit_quote db1 1 (some ⟨some "", none, none⟩)).2 1 = some quote1 ∧
    quote1.title = "a" ∧ ("a" : String) ≠ "" := by decide

/-- Claim C9 as amended.  In a quote update, each field supplied with a
truthy value (a non-empty string, a non-zero integer) is applied and
every falsy supply - null, omitted, the empty string, the integer 0 -
leaves the field unchanged (`applyStr` / `applyNat` capture `if field:`);
and a person update never writes the store at all, since `edit_person`
lacks the commit call. -/
theorem c9_truthy_fields_applied (db : DB) (id : Nat) (b : QuoteBody)
    (q : Quote) (hq : findQuote db id = some q)
    (hfk : applyNat q.person_id b.person_id = q.person_id ∨
      personExists db (applyNat q.person_id b.person_id) = true) :
    edit_quote db id (some b) =
      (.ok q.id,
        { db with quotes := db.quotes.map (fun r =>
            if r.id == id then
              { q with
                title := applyStr q.title b.title
                description := applyStr q.description b.description
                person_id := applyNat q.person_id b.person_id } else r) }) ∧
    (∀ cur : String, applyStr cur none = cur ∧ applyStr cur (some "") = cur) ∧
    (∀ cur : Nat, applyNat cur none = cur ∧ applyNat cur (some 0) = cur) ∧
    (∀ (cur s : String), s ≠ "" → applyStr cur (some s) = s) ∧
    (∀ (cur n : Nat), n ≠ 0 → applyNat cur (some n) = n) ∧
    (∀ pb : PersonBody, (edit_person db id (some pb)).2 = db) := by
  refine ⟨?_, fun cur => ⟨rfl, rfl⟩, fun cur => ⟨rfl, rfl⟩,
    fun cur s hs => by simp [applyStr, hs],
    fun cur n hn => by simp [applyNat, hn],
    fun pb => by cases h : findPerson db id <;> simp [edit_person, h]⟩
  rcases hfk with h | h
  · simp [edit_quote, hq, h]
  · simp [edit_quote, hq, h]

/-- Witness for C9's amended theorem at a concrete input: PATCH /quotes/1
with body `{title: "X", description: "", person_id: 0}` applies only the
truthy title - the falsy `""` and `0` leave description and person_id
unchanged. -/
theorem c9_witness :
    findQuote db1 1 = some quote1 ∧
    edit_quote db1 1 (some ⟨some "X", some "", some 0⟩) =
      (.ok 1, ⟨[⟨1, "X", "b", 1⟩], [ali], 2, 2⟩) :=
  ⟨by decide, by
    have h := (c9_truthy_fields_applied db1 1 ⟨some "X", some "", some 0⟩
      quote1 (by decide) (Or.inl rfl)).1
    rw [h]; decide⟩

/-- Claim C4.  An authorized GET /quotes or GET /persons request responds
404 exactly when the corresponding table is empty (never 200 with an
empty array); on a non-empty table it responds 200 with the rows in
ascending id order and a total count equal to the number of rows. -/
theorem c4_list_empty_404_else_sorted_with_count (db : DB) :
    (get_quotes db = .notFound ↔ db.quotes = []) ∧
    (db.quotes ≠ [] →
      get_quotes db = .ok (sortQuotes db.quotes) (sortQuotes db.quotes).length ∧
      (sortQuotes db.quotes).Pairwise quoteLe ∧
      (sortQuotes db.quotes).length = db.quotes.length) ∧
    (get_persons db = .notFound ↔ db.persons = []) ∧
    (db.persons ≠ [] →
      get_persons db = .ok (sortPersons db.persons) (sortPersons db.persons).length ∧
      (sortPersons db.persons).Pairwise personLe ∧
      (sortPersons db.persons).length = db.persons.length) := by
  have hqe : (sortQuotes db.quotes).isEmpty = true ↔ db.quotes = [] := by
    rw [List.isEmpty_iff, sortQuotes_eq_nil_iff]
  have hpe : (sortPersons db.persons).isEmpty = true ↔ db.persons = [] := by
    rw [List.isEmpty_iff, sortPersons_eq_nil_iff]
  refine ⟨?_, ?_, ?_, ?_⟩
  · constructor
    · intro hnf
      by_contra h
      have hne : (sortQuotes db.quotes).isEmpty = false := by
        cases he : (sortQuotes db.quotes).isEmpty
        · rfl
        · exact absurd (hqe.mp he) h
      simp [get_quotes, hne] at hnf
    · intro h
      simp [get_quotes, hqe.mpr h]
  · intro h
    have hne : (sortQuotes db.quotes).isEmpty = false := by
      cases he : (sortQuotes db.quotes).isEmpty
      · rfl
      · exact absurd (hqe.mp he) h
    exact ⟨by simp [get_quotes, hne], List.sorted_insertionSort quoteLe db.quotes,
      length_sortQuotes db.quotes⟩
  · constructor
    · intro hnf
      by_contra h
      have hne : (sortPersons db.persons).isEmpty = false := by
        cases he : (sortPersons db.persons).isEmpty
        · rfl
        · exact absurd (hpe.mp he) h
      simp [get_persons, hne] at hnf
    · intro h
      simp [get_persons, hpe.mpr h]
  · intro h
    have hne : (sortPersons db.persons).isEmpty = false := by
      cases he : (sortPersons db.persons).isEmpty
      · rfl
      · exact absurd (hpe.mp he) h
    exact ⟨by simp [get_persons, hne], List.sorted_insertionSort personLe db.persons,
      length_sortPersons db.persons⟩

/-- Witness for C4 at concrete stores: both listings of the empty store
are 404, and the one-quote store lists 200 with the sorted rows and
their count. -/
theorem c4_witness :
    get_quotes dbEmpty = .notFound ∧
    get_persons dbEmpty = .notFound ∧
    db1.quotes ≠ [] ∧
    (get_quotes db1 = .ok (sortQuotes db1.quotes) (sortQuotes db1.quotes).length ∧
      (sortQuotes db1.quotes).Pairwise quoteLe ∧
      (sortQuotes db1.quotes).length = db1.quotes.length) :=
  ⟨(c4_list_empty_404_else_sorted_with_count dbEmpty).1.mpr rfl,
   (c4_list_empty_404_else_sorted_with_count dbEmpty).2.2.1.mpr rfl,
   by decide,
   (c4_list_empty_404_else_sorted_with_count db1).2.1 (by decide)⟩

/-- Claim C5.  A POST /persons request whose body carries a non-null name
responds 200 with `created` equal to the freshly assigned row id
(`nextPersonId`), `persons` equal to the full post-insert ordered
listing, and `total_persons` equal to the post-insert row count, which
is the pre-insert count plus one; the store gains exactly the new
row. -/
theorem c5_create_person_returns_new_id_and_post_insert_listing
    (db : DB) (b : PersonBody) (s : String) (h : b.name = some s) :
    create_person db (some b) =
      (.ok db.nextPersonId
        (sortPersons (db.persons ++ [⟨db.nextPersonId, s⟩]))
        (db.persons.length + 1),
       { db with
          persons := db.persons ++ [⟨db.nextPersonId, s⟩]
          nextPersonId := db.nextPersonId + 1 }) ∧
    (sortPersons (db.persons ++ [⟨db.nextPersonId, s⟩])).length =
      db.persons.length + 1 := by
  have hl : (sortPersons (db.persons ++ [⟨db.nextPersonId, s⟩])).length =
      db.persons.length + 1 := by
    simp [length_sortPersons]
  exact ⟨by simp [create_person, h, hl], hl⟩

/-- Witness for C5 at a concrete input: POST /persons {name: "Mohamed"}
against `db1` (one person, next id 2) gives 200 with created = 2, the
two-person listing, and total_persons = 2. -/
theorem c5_witness :
    (PersonBody.mk (some "Mohamed")).name = some "Mohamed" ∧
    create_person db1 (some ⟨some "Mohamed"⟩) =
      (.ok 2 [ali, ⟨2, "Mohamed"⟩] 2, ⟨[quote1], [ali, ⟨2, "Mohamed"⟩], 2, 3⟩) :=
  ⟨rfl, by
    have h := (c5_create_person_returns_new_id_and_post_insert_listing db1
      ⟨some "Mohamed"⟩ "Mohamed" rfl).1
    rw [h]; decide⟩

/-- Claim C6.  Every auth failure on a protected route - any `AuthError`,
including the `Forbidden` raised when a valid token lacks the required
permission - yields HTTP status 401 (never 403), with the body
`{success: false, error: ex.status_code, message: ex.error}` carrying
the failure kind's description. -/
theorem c6_auth_failures_uniform_401 (α : Type) (required : String)
    (claims : AuthClaims) (handler : α) :
    (∀ ex : AuthError, authorize required claims = .error ex →
      runProtected required claims handler =
        .authFailed 401 ⟨false, ex.status_code, ex.error⟩) ∧
    (∀ ex : AuthError, (handle_auth_error ex).1 = 401 ∧
      (handle_auth_error ex).2 = ⟨false, ex.status_code, ex.error⟩) ∧
    (∀ perms : List String, claims.permissions = some perms → required ∉ perms →
      runProtected required claims handler =
        .authFailed 401 ⟨false, 403, "Permission not found."⟩) ∧
    (401 : Nat) ≠ 403 := by
  refine ⟨?_, fun ex => ⟨rfl, rfl⟩, ?_, by decide⟩
  · intro ex h
    simp [runProtected, h, handle_auth_error]
  · intro perms hp hnm
    simp [runProtected, authorize, hp, hnm, handle_auth_error]

/-- Witness for C6 at a concrete input: a token holding only
`create:quote` hitting the route guarded by `get:quotes` is answered
with HTTP 401 (error code 403 inside the body, status never 403). -/
theorem c6_witness :
    (AuthClaims.mk (some ["create:quote"])).permissions = some ["create:quote"] ∧
    "get:quotes" ∉ ["create:quote"] ∧
    runProtected "get:quotes" ⟨some ["create:quote"]⟩ (0 : Nat) =
      .authFailed 401 ⟨false, 403, "Permission not found."⟩ :=
  ⟨rfl, by decide,
   (c6_auth_failures_uniform_401 Nat "get:quotes" ⟨some ["create:quote"]⟩ 0).2.2.1
     ["create:quote"] rfl (by decide)⟩

/-- Claim C8.  DELETE /quotes/{id} and DELETE /persons/{id}: an unknown
id means 404 with the store untouched; a known id means 200 with `id`
equal to the deleted id, after which the (sorted) listing contains no
row with that id, the other table being untouched. -/
theorem c8_delete_semantics (db : DB) (id : Nat) :
    (findQuote db id = none → remove_quote db id = (.notFound, db)) ∧
    (findQuote db id ≠ none →
      (remove_quote db id).1 = .ok id ∧
      (∀ q ∈ sortQuotes (remove_quote db id).2.quotes, q.id ≠ id) ∧
      (remove_quote db id).2.persons = db.persons) ∧
    (findPerson db id = none → remove_person db id = (.notFound, db)) ∧
    (findPerson db id ≠ none →
      (remove_person db id).1 = .ok id ∧
      (∀ p ∈ sortPersons (remove_person db id).2.persons, p.id ≠ id) ∧
      (remove_person db id).2.quotes = db.quotes) := by
  refine ⟨?_, ?_, ?_, ?_⟩
  · intro h; simp [remove_quote, h]
  · intro h
    obtain ⟨q0, hq0⟩ := Option.ne_none_iff_exists'.mp h
    refine ⟨by simp [remove_quote, hq0], ?_, by simp [remove_quote, hq0]⟩
    intro q hmem
    rw [mem_sortQuotes] at hmem
    simp [remove_quote, hq0, List.mem_filter] at hmem
    exact hmem.2
  · intro h; simp [remove_person, h]
  · intro h
    obtain ⟨p0, hp0⟩ := Option.ne_none_iff_exists'.mp h
    refine ⟨by simp [remove_person, hp0], ?_, by simp [remove_person, hp0]⟩
    intro p hmem
    rw [mem_sortPersons] at hmem
    simp [remove_person, hp0, List.mem_filter] at hmem
    exact hmem.2

/-- Witness for C8 at concrete inputs: deleting the absent quote 5 is
404 with the store unchanged, and deleting the present quote 1 and
person 1 each respond 200 with id 1, leaving the other table
untouched. -/
theorem c8_witness :
    findQuote db1 5 = none ∧
    remove_quote db1 5 = (.notFound, db1) ∧
    findQuote db1 1 ≠ none ∧
    (remove_quote db1 1).1 = .ok 1 ∧
    (remove_quote db1 1).2.persons = db1.persons ∧
    findPerson db1 1 ≠ none ∧
    (remove_person db1 1).1 = .ok 1 ∧
    (remove_person db1 1).2.quotes = db1.quotes :=
  ⟨by decide,
   (c8_delete_semantics db1 5).1 (by decide),
   by decide,
   ((c8_delete_semantics db1 1).2.1 (by decide)).1,
   ((c8_delete_semantics db1 1).2.1 (by decide)).2.2,
   by decide,
   ((c8_delete_semantics db1 1).2.2.2 (by decide)).1,
   ((c8_delete_semantics db1 1).2.2.2 (by decide)).2.2⟩

end Quotation
